import Mathlib

/-!
The interaction controller of goTrack (`src/main.go`).

The program is one bubbletea model (`model`) with an `Update` and a `View`
method.  It composes widgets of the charmbracelet/bubbles toolkit.

* `timer`, `key` and `time.Duration` are small and `main.go` reads and writes
  their fields directly (`m.timer.Timeout = timeout`), so they are embedded
  concretely, following the published source of the library.
* `viewport`, `textarea` and `help` are large rendering widgets.  `main.go`
  only calls a handful of their methods, so they are a parameter of the
  development (`Widgets`): every universally quantified theorem below holds
  for every implementation of these widgets.  `bubbles` is one concrete
  implementation, used to evaluate the program on concrete inputs.
-/

namespace GoTrack

/-! ## time -/

/-- Go's `time.Duration`: a signed 64-bit count of nanoseconds. -/
abbrev Duration := Int

/-- Embeds `time.Millisecond`. -/
def Millisecond : Duration := 1000000

/-- Embeds `time.Second`. -/
def Second : Duration := 1000000000

/-- Two's-complement wrap-around of 64-bit signed arithmetic. -/
def wrapInt64 (x : Int) : Int :=
  (x + 9223372036854775808) % 18446744073709551616 - 9223372036854775808

/-- Embeds `fmtInt` of Go's `time` package: the decimal digits of `v` are written in
front of `buf` (the loop runs at most 20 times for a 64-bit value). -/
def fmtIntLoop : Nat → Nat → List Char → List Char
  | 0, _, buf => buf
  | fuel + 1, v, buf =>
    if v = 0 then buf else fmtIntLoop fuel (v / 10) (Nat.digitChar (v % 10) :: buf)

/-- Embeds `fmtInt` of Go's `time` package. -/
def fmtInt (buf : List Char) (v : Nat) : List Char :=
  if v = 0 then '0' :: buf else fmtIntLoop 20 v buf

/-- The loop of `fmtFrac`: `prec` digits, trailing zeros omitted. -/
def fmtFracLoop : Nat → Nat → Bool → List Char → List Char × Nat × Bool
  | 0, v, pr, buf => (buf, v, pr)
  | i + 1, v, pr, buf =>
    let digit := v % 10
    let pr := pr || digit != 0
    let buf := if pr then Nat.digitChar digit :: buf else buf
    fmtFracLoop i (v / 10) pr buf

/-- Embeds `fmtFrac` of Go's `time` package: the fraction of `v / 10^prec` written in
front of `buf`, and the value `v / 10^prec`. -/
def fmtFrac (buf : List Char) (v : Nat) (prec : Nat) : List Char × Nat :=
  let r := fmtFracLoop prec v false buf
  (if r.2.2 then '.' :: r.1 else r.1, r.2.1)

/-- Embeds `Duration.format` of Go's `time` package, as a list of characters. -/
def durationChars (d : Duration) : List Char :=
  let u := d.natAbs
  let body : List Char :=
    if u < 1000000000 then
      if u = 0 then ['0', 's']
      else
        let unit : List Char × Nat :=
          if u < 1000 then (['n', 's'], 0)
          else if u < 1000000 then (['µ', 's'], 3)
          else (['m', 's'], 6)
        let f := fmtFrac unit.1 u unit.2
        fmtInt f.1 f.2
    else
      let f := fmtFrac ['s'] u 9
      let buf := fmtInt f.1 (f.2 % 60)
      let u2 := f.2 / 60
      if u2 > 0 then
        let buf := fmtInt ('m' :: buf) (u2 % 60)
        let u3 := u2 / 60
        if u3 > 0 then fmtInt ('h' :: buf) u3 else buf
      else buf
  if d < 0 then '-' :: body else body

/-- Embeds `Duration.String()` of Go's `time` package, e.g. "5s", "4.999s", "1ms". -/
def durationString (d : Duration) : String :=
  String.mk (durationChars d)

/-- Embeds `const timeout = time.Second * 5`. -/
def timeout : Duration := Second * 5

/-- Embeds `const gap`: a blank line. -/
def gap : String := "\n\n"

/-! ## tea: messages and commands -/

/-- A `tea.KeyMsg`.  `runes` is a key press of type `KeyRunes` (typed
characters, no modifier); `named` is any other key, given by the name
bubbletea prints for it ("ctrl+c", "enter", "up", ...). -/
inductive KeyMsg where
  | runes (rs : String)
  | named (name : String)
deriving DecidableEq, Repr

/-- Embeds `KeyMsg.String()`: the text `key.Matches` compares with a binding's keys. -/
def KeyMsg.str : KeyMsg → String
  | .runes rs => rs
  | .named name => name

/-- The `tea.Msg` values `Update` distinguishes.  `other` is any other message
(window size, cursor blink, ...), identified by a code. -/
inductive Msg where
  | TickMsg (ID : Int) (Timeout : Bool) (tag : Int)
  | StartStopMsg (ID : Int) (running : Bool)
  | TimeoutMsg (ID : Int)
  | KeyMsg (k : KeyMsg)
  | other (code : Nat)
deriving DecidableEq, Repr

/-- A `tea.Cmd`, described by what it does when the runtime runs it.
`nil` is the nil command, `Quit` is `tea.Quit`, `emit msg` is a function
returning `msg`, `Tick d msg` is `tea.Tick(d, ...)` delivering `msg` after `d`,
`widget` is a command created inside a rendering widget, and `Batch` is
`tea.Batch` of two commands. -/
inductive Cmd where
  | nil
  | Quit
  | emit (msg : Msg)
  | Tick (d : Duration) (msg : Msg)
  | widget (code : Nat)
  | Batch (a b : Cmd)
deriving DecidableEq, Repr

/-! ## key -/

/-- The help text of a binding (`key.Help`). -/
structure key.Help where
  Key : String
  Desc : String
deriving DecidableEq, Repr

/-- A key binding (`key.Binding`).  The empty list of keys stands for Go's nil
slice. -/
structure key.Binding where
  keys : List String
  help : key.Help
  disabled : Bool
deriving DecidableEq, Repr

/-- Embeds `key.NewBinding(key.WithKeys(keys...), key.WithHelp(k, desc))`. -/
def key.NewBinding (keys : List String) (helpKey helpDesc : String) : key.Binding :=
  { keys := keys, help := { Key := helpKey, Desc := helpDesc }, disabled := false }

/-- Embeds `Binding.Enabled()`: not disabled and with at least one key. -/
def key.Binding.Enabled (b : key.Binding) : Bool :=
  !b.disabled && !b.keys.isEmpty

/-- Embeds `Binding.SetEnabled(v)`. -/
def key.Binding.SetEnabled (b : key.Binding) (v : Bool) : key.Binding :=
  { b with disabled := !v }

/-- Embeds `key.Matches(k, bs...)`: some enabled binding lists the key's string. -/
def key.Matches (k : KeyMsg) (bs : List key.Binding) : Bool :=
  bs.any fun b => b.keys.any fun v => k.str == v && b.Enabled

/-- The struct `keymap` of `main.go`. -/
structure keymap where
  start : key.Binding
  stop : key.Binding
  reset : key.Binding
  quit : key.Binding
  newTimer : key.Binding
  newTask : key.Binding
deriving DecidableEq, Repr

/-! ## timer -/

/-- The model of the countdown timer (`timer.Model`). -/
structure timer.Model where
  Timeout : Duration
  Interval : Duration
  id : Int
  tag : Int
  running : Bool
deriving DecidableEq, Repr

/-- Embeds `timer.NewWithInterval(timeout, interval)`; `id` is the value the
package-level counter `nextID()` returns. -/
def timer.NewWithInterval (timeout interval : Duration) (id : Int) : timer.Model :=
  { Timeout := timeout, Interval := interval, id := id, tag := 0, running := true }

/-- Embeds `Model.Timedout()`. -/
def timer.Model.Timedout (m : timer.Model) : Bool :=
  decide (m.Timeout ≤ 0)

/-- Embeds `Model.Running()`. -/
def timer.Model.Running (m : timer.Model) : Bool :=
  if m.Timedout || !m.running then false else true

/-- The private `Model.tick()`: a tick message after one interval. -/
def timer.Model.tick (m : timer.Model) : Cmd :=
  Cmd.Tick m.Interval (Msg.TickMsg m.id m.Timedout m.tag)

/-- The private `Model.timedout()`. -/
def timer.Model.timedout (m : timer.Model) : Cmd :=
  if !m.Timedout then Cmd.nil else Cmd.emit (Msg.TimeoutMsg m.id)

/-- The private `Model.startStop(v)`. -/
def timer.Model.startStop (m : timer.Model) (v : Bool) : Cmd :=
  Cmd.emit (Msg.StartStopMsg m.id v)

/-- Embeds `Model.Start()`. -/
def timer.Model.Start (m : timer.Model) : Cmd :=
  m.startStop true

/-- Embeds `Model.Toggle()`. -/
def timer.Model.Toggle (m : timer.Model) : Cmd :=
  m.startStop (!m.Running)

/-- Embeds `Model.Update(msg)` of the timer. -/
def timer.Model.Update (m : timer.Model) (msg : Msg) : timer.Model × Cmd :=
  match msg with
  | .StartStopMsg ID running =>
    if ID ≠ 0 ∧ ID ≠ m.id then (m, Cmd.nil)
    else
      let m := { m with running := running }
      (m, m.tick)
  | .TickMsg ID _ tag =>
    if !m.Running || (ID ≠ 0 ∧ ID ≠ m.id) then (m, Cmd.nil)
    else if tag > 0 ∧ tag ≠ m.tag then (m, Cmd.nil)
    else
      let m := { m with Timeout := wrapInt64 (m.Timeout - m.Interval) }
      (m, Cmd.Batch m.tick m.timedout)
  | _ => (m, Cmd.nil)

/-- Embeds `Model.View()` of the timer: the remaining duration. -/
def timer.Model.View (m : timer.Model) : String :=
  durationString m.Timeout

/-! ## The rendering widgets -/

/-- The methods of `viewport.Model`, `textarea.Model` and `help.Model` that
`main.go` calls.  `taMain` is the text area `main` builds (`textarea.New()`,
focused, prompt "┃ ", `CharLimit` 280, width 30, height 3, no line numbers). -/
structure Widgets where
  Viewport : Type
  Textarea : Type
  Help : Type
  vpNew : Nat → Nat → Viewport
  vpUpdate : Viewport → Msg → Viewport × Cmd
  vpSetContent : Viewport → String → Viewport
  vpView : Viewport → String
  taMain : Textarea
  taUpdate : Textarea → Msg → Textarea × Cmd
  taValue : Textarea → String
  taReset : Textarea → Textarea
  taView : Textarea → String
  helpNew : Help
  ShortHelpView : Help → List key.Binding → String

/-! ## The model of `main.go` -/

/-- The struct `model` of `main.go`. -/
structure model (T : Widgets) where
  timer : timer.Model
  keymap : keymap
  help : T.Help
  quitting : Bool
  task : String
  started : Bool
  viewport : T.Viewport
  textarea : T.Textarea

/-- What one call of `Update` returns: the model, the command, and the value
of the timer package's id counter afterwards. -/
structure Step (T : Widgets) where
  m : model T
  cmd : Cmd
  lastID : Int

/-- Embeds `func (m model) Update(msg tea.Msg) (tea.Model, tea.Cmd)`.  `lastID` is the
timer package's id counter before the call (`nextID()` adds one to it). -/
def model.Update {T : Widgets} (m : model T) (msg : Msg) (lastID : Int) : Step T :=
  let vp := T.vpUpdate m.viewport msg
  let ta := T.taUpdate m.textarea msg
  let vpCmd := vp.2
  let tiCmd := ta.2
  let m : model T := { m with viewport := vp.1, textarea := ta.1 }
  match msg with
  | .TickMsg _ _ _ =>
    let r := m.timer.Update msg
    { m := { m with timer := r.1 }, cmd := r.2, lastID := lastID }
  | .StartStopMsg _ _ =>
    let r := m.timer.Update msg
    let m : model T := { m with timer := r.1 }
    let m : model T :=
      { m with keymap := { m.keymap with stop := m.keymap.stop.SetEnabled m.timer.Running } }
    let m : model T :=
      { m with keymap := { m.keymap with start := m.keymap.start.SetEnabled (!m.timer.Running) } }
    { m := m, cmd := r.2, lastID := lastID }
  | .TimeoutMsg _ =>
    { m := { m with quitting := true }, cmd := Cmd.Quit, lastID := lastID }
  | .KeyMsg k =>
    if key.Matches k [m.keymap.newTimer] then
      let id := wrapInt64 (lastID + 1)
      let m : model T := { m with timer := timer.NewWithInterval timeout Millisecond id }
      let m : model T := { m with started := true }
      { m := m, cmd := m.timer.Start, lastID := id }
    else if key.Matches k [m.keymap.quit] then
      { m := { m with quitting := true }, cmd := Cmd.Quit, lastID := lastID }
    else if key.Matches k [m.keymap.reset] then
      let m : model T := { m with timer := { m.timer with Timeout := timeout } }
      { m := m, cmd := Cmd.Batch tiCmd vpCmd, lastID := lastID }
    else if key.Matches k [m.keymap.start, m.keymap.stop] then
      { m := m, cmd := m.timer.Toggle, lastID := lastID }
    else if key.Matches k [m.keymap.newTask] then
      let m : model T := { m with viewport := T.vpSetContent m.viewport (T.taValue m.textarea) }
      let m : model T := { m with textarea := T.taReset m.textarea }
      { m := m, cmd := Cmd.Batch tiCmd vpCmd, lastID := lastID }
    else
      { m := m, cmd := Cmd.Batch tiCmd vpCmd, lastID := lastID }
  | .other _ =>
    { m := m, cmd := Cmd.Batch tiCmd vpCmd, lastID := lastID }

/-- The bindings `helpView` passes to the help widget, in order. -/
def model.helpBindings {T : Widgets} (m : model T) : List key.Binding :=
  [m.keymap.start, m.keymap.stop, m.keymap.reset, m.keymap.quit, m.keymap.newTimer,
    m.keymap.newTask]

/-- Embeds `func (m model) helpView() string`. -/
def model.helpView {T : Widgets} (m : model T) : String :=
  "\n" ++ T.ShortHelpView m.help m.helpBindings

/-- The time line of `View`: the timer's rendering, or "All done!". -/
def model.timeLine {T : Widgets} (m : model T) : String :=
  if m.timer.Timedout then "All done!" else m.timer.View

/-- Embeds `func (m model) View() string`. -/
def model.View {T : Widgets} (m : model T) : String :=
  if !m.started then
    T.vpView m.viewport ++ gap ++ T.taView m.textarea
  else
    let s := m.timer.View
    let s := if m.timer.Timedout then "All done!" else s
    let s := s ++ "\n"
    let s :=
      if !m.quitting then
        ("Working on task: " ++ T.vpView m.viewport ++ "\n" ++ "Remaining time: " ++ s)
          ++ m.helpView
      else s
    s

/-- The key bindings `main` builds, before `start` is disabled. -/
def main.keymap : keymap :=
  { start := key.NewBinding ["s"] "s" "start"
    stop := key.NewBinding ["s"] "s" "stop"
    reset := key.NewBinding ["r"] "r" "reset"
    quit := key.NewBinding ["q", "ctrl+c"] "q" "quit"
    newTimer := key.NewBinding ["n"] "n" "new"
    newTask := key.NewBinding ["a"] "a" "add new task" }

/-- The model `main` hands to `tea.NewProgram`: the zero timer, the key
bindings with `start` disabled, and the widgets as `main` configures them. -/
def main.m (T : Widgets) : model T :=
  let ta := T.taMain
  let vp := T.vpSetContent (T.vpNew 30 5) "Enter a new task"
  let m : model T :=
    { timer := { Timeout := 0, Interval := 0, id := 0, tag := 0, running := false }
      keymap := main.keymap
      help := T.helpNew
      quitting := false
      task := ""
      started := false
      viewport := vp
      textarea := ta }
  { m with keymap := { m.keymap with start := m.keymap.start.SetEnabled false } }

/-! ## A concrete implementation of the rendering widgets -/

/-- A viewport holding its content.  Scrolling, padding to the viewport's
height and styling are not part of this implementation. -/
structure RefViewport where
  Width : Nat
  Height : Nat
  content : String
deriving DecidableEq, Repr

/-- A text area holding its text, with the cursor at the end of the text.
Editing keys other than typed characters are not part of this
implementation. -/
structure RefTextarea where
  value : String
  focus : Bool
  CharLimit : Nat
  Prompt : String
deriving DecidableEq, Repr

/-- Typed characters are inserted up to the character limit
(`insertRunesFromUserInput` of the text area). -/
def RefTextarea.insertRunes (m : RefTextarea) (rs : String) : RefTextarea :=
  if m.CharLimit > 0 then
    let availSpace : Int := (m.CharLimit : Int) - (m.value.length : Int)
    if availSpace ≤ 0 then m
    else { m with value := m.value ++ String.mk (rs.toList.take availSpace.toNat) }
  else { m with value := m.value ++ rs }

/-- Method `Update` of the text area: without focus nothing happens; a key press of
typed characters inserts them. -/
def RefTextarea.Update (m : RefTextarea) (msg : Msg) : RefTextarea × Cmd :=
  if !m.focus then (m, Cmd.nil)
  else
    match msg with
    | .KeyMsg (.runes rs) => (m.insertRunes rs, Cmd.nil)
    | _ => (m, Cmd.nil)

/-- The bindings the short help lists: `ShortHelpView` skips disabled ones. -/
def helpShown (bs : List key.Binding) : List key.Binding :=
  bs.filter fun b => b.Enabled

/-- The short help line: "key desc" items joined by a bullet separator. -/
def refShortHelp (bs : List key.Binding) : String :=
  " • ".intercalate ((helpShown bs).map fun b => b.help.Key ++ " " ++ b.help.Desc)

/-- The widgets of the bubbles toolkit, reduced to what `main.go` observes:
the viewport shows the content it was given, the focused text area inserts
typed characters and `Reset` empties it, the help line lists the enabled
bindings. -/
def bubbles : Widgets :=
  { Viewport := RefViewport
    Textarea := RefTextarea
    Help := Unit
    vpNew := fun w h => { Width := w, Height := h, content := "" }
    vpUpdate := fun vp _ => (vp, Cmd.nil)
    vpSetContent := fun vp s => { vp with content := s }
    vpView := fun vp => vp.content
    taMain := { value := "", focus := true, CharLimit := 280, Prompt := "┃ " }
    taUpdate := RefTextarea.Update
    taValue := fun ta => ta.value
    taReset := fun ta => { ta with value := "" }
    taView := fun ta => ta.Prompt ++ ta.value
    helpNew := ()
    ShortHelpView := fun _ bs => refShortHelp bs }

/-- The model after `Update` has handled the messages `msgs` one after the
other, with the id counter threaded through. -/
def model.run {T : Widgets} (m : model T) (lastID : Int) : List Msg → model T × Int
  | [] => (m, lastID)
  | msg :: rest =>
    let r := m.Update msg lastID
    model.run r.m r.lastID rest

/-- The key press of one typed character. -/
def press (c : Char) : Msg :=
  Msg.KeyMsg (KeyMsg.runes (String.singleton c))

/-- Typing a text: one key press per character. -/
def typing (s : String) : List Msg :=
  s.toList.map press

/-- The states the program can be in: the model of `main` with the id counter
at zero, and every state `Update` reaches from such a state on any message. -/
inductive Reachable (T : Widgets) : model T → Int → Prop
  | init : Reachable T (main.m T) 0
  | step (m : model T) (lastID : Int) (msg : Msg) :
      Reachable T m lastID →
        Reachable T (m.Update msg lastID).m (m.Update msg lastID).lastID

/-- The key bindings are those `main` builds; only the enabled flags of
`start` and `stop` are free. -/
def keymap.asInMain (km : keymap) : Prop :=
  km.start.keys = ["s"] ∧ km.stop.keys = ["s"] ∧
    km.start.help = main.keymap.start.help ∧ km.stop.help = main.keymap.stop.help ∧
    km.reset = main.keymap.reset ∧ km.quit = main.keymap.quit ∧
    km.newTimer = main.keymap.newTimer ∧ km.newTask = main.keymap.newTask

instance (km : keymap) : Decidable km.asInMain := by
  unfold keymap.asInMain; infer_instance

/-- An event that `Update` does not let reach the timer's remaining time:
anything but a tick and the keys "n" and "r". -/
def Msg.keepsTime : Msg → Prop
  | .TickMsg _ _ _ => False
  | .KeyMsg k => k.str ≠ "n" ∧ k.str ≠ "r"
  | _ => True

instance (msg : Msg) : Decidable msg.keepsTime := by
  cases msg <;> unfold Msg.keepsTime <;> infer_instance

/-- The text "Buy milk" typed into the text area of the initial model. -/
def typedBuyMilk : model bubbles :=
  ((main.m bubbles).run 0 (typing "Buy milk")).1

/-- The initial model after the key "n". -/
def afterNew : model bubbles :=
  ((main.m bubbles).Update (press 'n') 0).m

/-- The initial model after the keys "n" and "q". -/
def afterNewQuit : model bubbles :=
  (afterNew.Update (press 'q') 1).m

/-! ## Key matching with the bindings of `main` -/

theorem matches_newTimer {km : keymap} (h : km.asInMain) (k : KeyMsg) :
    key.Matches k [km.newTimer] = (k.str == "n") := by
  obtain ⟨_, _, _, _, _, _, h7, _⟩ := h
  simp [key.Matches, h7, main.keymap, key.NewBinding, key.Binding.Enabled]

theorem matches_quit {km : keymap} (h : km.asInMain) (k : KeyMsg) :
    key.Matches k [km.quit] = (k.str == "q" || k.str == "ctrl+c") := by
  obtain ⟨_, _, _, _, _, h6, _, _⟩ := h
  simp [key.Matches, h6, main.keymap, key.NewBinding, key.Binding.Enabled]

theorem matches_reset {km : keymap} (h : km.asInMain) (k : KeyMsg) :
    key.Matches k [km.reset] = (k.str == "r") := by
  obtain ⟨_, _, _, _, h5, _, _, _⟩ := h
  simp [key.Matches, h5, main.keymap, key.NewBinding, key.Binding.Enabled]

theorem matches_startStop {km : keymap} (h : km.asInMain) (k : KeyMsg) :
    key.Matches k [km.start, km.stop] =
      (k.str == "s" && (km.start.Enabled || km.stop.Enabled)) := by
  obtain ⟨h1, h2, _⟩ := h
  simp only [key.Matches, h1, h2, List.any_cons, List.any_nil, Bool.or_false]
  cases k.str == "s" <;> simp

/-- Method `Update` changes the key bindings only on a start/stop event. -/
theorem Update_keymap {T : Widgets} (m : model T) (msg : Msg) (lastID : Int) :
    (m.Update msg lastID).m.keymap =
      match msg with
      | .StartStopMsg _ _ =>
        { m.keymap with
          stop := m.keymap.stop.SetEnabled (m.timer.Update msg).1.Running
          start := m.keymap.start.SetEnabled (!(m.timer.Update msg).1.Running) }
      | _ => m.keymap := by
  cases msg
  case KeyMsg k =>
    simp only [model.Update]
    repeat (split <;> try rfl)
  all_goals rfl

/-- The bindings of `main` stay in place under `Update`. -/
theorem Update_asInMain {T : Widgets} (m : model T) (msg : Msg) (lastID : Int)
    (h : m.keymap.asInMain) : (m.Update msg lastID).m.keymap.asInMain := by
  rw [Update_keymap]
  cases msg <;> exact h

/-- No branch of `Update` clears quitting. -/
theorem Update_quitting {T : Widgets} (m : model T) (msg : Msg) (lastID : Int)
    (h : m.quitting = true) : (m.Update msg lastID).m.quitting = true := by
  cases msg
  case KeyMsg k =>
    simp only [model.Update]
    repeat (split <;> try first | rfl | exact h)
  all_goals first | rfl | exact h

/-- No branch of `Update` clears started. -/
theorem Update_started {T : Widgets} (m : model T) (msg : Msg) (lastID : Int)
    (h : m.started = true) : (m.Update msg lastID).m.started = true := by
  cases msg
  case KeyMsg k =>
    simp only [model.Update]
    repeat (split <;> try first | rfl | exact h)
  all_goals first | rfl | exact h

/-- Only the key "n" sets started. -/
theorem Update_started_eq {T : Widgets} (m : model T) (k : KeyMsg) (lastID : Int)
    (hkm : m.keymap.asInMain) (hk : k.str ≠ "n") :
    (m.Update (Msg.KeyMsg k) lastID).m.started = m.started := by
  have h1 : key.Matches k [m.keymap.newTimer] = false := by
    rw [matches_newTimer hkm]; simpa using hk
  simp only [model.Update, h1, Bool.false_eq_true, if_false]
  repeat (split <;> try rfl)

/-- The timer's start/stop event keeps the remaining time. -/
theorem timer_Update_startStop_Timeout (t : timer.Model) (ID : Int) (running : Bool) :
    (t.Update (Msg.StartStopMsg ID running)).1.Timeout = t.Timeout := by
  simp only [timer.Model.Update]
  split <;> rfl

/-- Events other than a tick, "n" and "r" keep the timer's remaining time. -/
theorem Update_Timeout {T : Widgets} (m : model T) (msg : Msg) (lastID : Int)
    (hkm : m.keymap.asInMain) (hmsg : msg.keepsTime) :
    (m.Update msg lastID).m.timer.Timeout = m.timer.Timeout := by
  cases msg
  case TickMsg ID t tag => exact absurd hmsg (by simp [Msg.keepsTime])
  case StartStopMsg ID running =>
    exact timer_Update_startStop_Timeout m.timer ID running
  case TimeoutMsg ID => rfl
  case other c => rfl
  case KeyMsg k =>
    obtain ⟨hn, hr⟩ := hmsg
    have h1 : key.Matches k [m.keymap.newTimer] = false := by
      rw [matches_newTimer hkm]; simpa using hn
    have h3 : key.Matches k [m.keymap.reset] = false := by
      rw [matches_reset hkm]; simpa using hr
    simp only [model.Update, h1, h3, Bool.false_eq_true, if_false]
    repeat (split <;> try rfl)

/-- The rendering of a started, quitting model: the time line only. -/
theorem View_started_quitting {T : Widgets} (m : model T) (hs : m.started = true)
    (hq : m.quitting = true) :
    m.View = (if decide (m.timer.Timeout ≤ 0) then "All done!"
      else durationString m.timer.Timeout) ++ "\n" := by
  simp [model.View, hs, hq, timer.Model.Timedout, timer.Model.View]

/-- The rendering of a model in which no timer was started. -/
theorem View_not_started {T : Widgets} (m : model T) (hs : m.started = false) :
    m.View = T.vpView m.viewport ++ gap ++ T.taView m.textarea := by
  simp [model.View, hs]

/-- Key presses other than "n" keep started false and the bindings of `main`. -/
theorem run_keys_started {T : Widgets} (ks : List KeyMsg) :
    ∀ (m : model T) (lastID : Int), m.keymap.asInMain → m.started = false →
      (∀ k ∈ ks, k.str ≠ "n") → (m.run lastID (ks.map Msg.KeyMsg)).1.started = false := by
  induction ks with
  | nil => intro m lastID _ hs _; exact hs
  | cons k ks ih =>
    intro m lastID hkm hs hks
    simp only [List.map_cons, model.run]
    apply ih
    · exact Update_asInMain m _ lastID hkm
    · rw [Update_started_eq m k lastID hkm (hks k (List.mem_cons_self k ks))]; exact hs
    · intro k' hk'; exact hks k' (List.mem_cons_of_mem k hk')

/-- In every reachable state the bindings are those of `main` and exactly one
of start and stop is disabled. -/
theorem reachable_keymap {T : Widgets} (m : model T) (lastID : Int)
    (h : Reachable T m lastID) :
    m.keymap.asInMain ∧ m.keymap.start.disabled = !m.keymap.stop.disabled := by
  induction h with
  | init => exact ⟨⟨rfl, rfl, rfl, rfl, rfl, rfl, rfl, rfl⟩, rfl⟩
  | step m lastID msg _ ih =>
    refine ⟨Update_asInMain m msg lastID ih.1, ?_⟩
    rw [Update_keymap]
    cases msg
    case StartStopMsg ID running =>
      simp [key.Binding.SetEnabled]
    all_goals exact ih.2

/-! ## The timeout event -/

/-- C2 (as stated, refuted): in the state after the key "n", where quitting is
false, the timeout event sets quitting to true and returns `tea.Quit`. -/
theorem C2_timeout_sets_quitting_counterexample :
    afterNew.quitting = false ∧
      (afterNew.Update (Msg.TimeoutMsg 1) 1).m.quitting = true ∧
      (afterNew.Update (Msg.TimeoutMsg 1) 1).cmd = Cmd.Quit := by
  decide

/-- C2 (amended): for every model state, handling the timer's timeout event
sets quitting to true and returns the process-termination command `tea.Quit`;
started and the timer are left unchanged. -/
theorem C2_timeout_quits {T : Widgets} (m : model T) (ID lastID : Int) :
    (m.Update (Msg.TimeoutMsg ID) lastID).m.quitting = true ∧
      (m.Update (Msg.TimeoutMsg ID) lastID).cmd = Cmd.Quit ∧
      (m.Update (Msg.TimeoutMsg ID) lastID).m.started = m.started ∧
      (m.Update (Msg.TimeoutMsg ID) lastID).m.timer = m.timer :=
  ⟨rfl, rfl, rfl, rfl⟩

/-! ## The keys "n", "q" and "ctrl+c" -/

/-- C3: for every model state with the key bindings of `main`, the key "n"
yields started = true and a timer with the full 5 seconds (5000000000 ns)
remaining and a 1 millisecond interval, leaves quitting unchanged and returns
the start command of that timer; the same holds when "n" is pressed again in
the resulting state, so a running timer restarts from the full duration. -/
theorem C3_new_timer {T : Widgets} (m : model T) (k : KeyMsg) (lastID : Int)
    (hkm : m.keymap.asInMain) (hk : k.str = "n") :
    (m.Update (Msg.KeyMsg k) lastID).m.started = true ∧
      (m.Update (Msg.KeyMsg k) lastID).m.timer.Timeout = timeout ∧
      timeout = 5000000000 ∧
      (m.Update (Msg.KeyMsg k) lastID).m.timer.Interval = 1000000 ∧
      (m.Update (Msg.KeyMsg k) lastID).m.quitting = m.quitting ∧
      (m.Update (Msg.KeyMsg k) lastID).cmd = (m.Update (Msg.KeyMsg k) lastID).m.timer.Start ∧
      (m.Update (Msg.KeyMsg k) lastID).cmd =
        Cmd.emit (Msg.StartStopMsg (m.Update (Msg.KeyMsg k) lastID).m.timer.id true) ∧
      (((m.Update (Msg.KeyMsg k) lastID).m.Update (Msg.KeyMsg k)
          (m.Update (Msg.KeyMsg k) lastID).lastID).m.timer.Timeout = timeout ∧
        ((m.Update (Msg.KeyMsg k) lastID).m.Update (Msg.KeyMsg k)
          (m.Update (Msg.KeyMsg k) lastID).lastID).m.started = true) := by
  have key : ∀ (m : model T) (lastID : Int), m.keymap.asInMain →
      (m.Update (Msg.KeyMsg k) lastID).m.started = true ∧
      (m.Update (Msg.KeyMsg k) lastID).m.timer.Timeout = timeout ∧
      (m.Update (Msg.KeyMsg k) lastID).m.timer.Interval = 1000000 ∧
      (m.Update (Msg.KeyMsg k) lastID).m.quitting = m.quitting ∧
      (m.Update (Msg.KeyMsg k) lastID).cmd = (m.Update (Msg.KeyMsg k) lastID).m.timer.Start := by
    intro m lastID h
    have hm : key.Matches k [m.keymap.newTimer] = true := by
      rw [matches_newTimer h, hk]; rfl
    simp only [model.Update, hm, if_true]
    refine ⟨?_, ?_, ?_, ?_, ?_⟩ <;> first | rfl | trivial
  obtain ⟨h1, h2, h3, h4, h5⟩ := key m lastID hkm
  obtain ⟨g1, g2, _⟩ := key (m.Update (Msg.KeyMsg k) lastID).m
    (m.Update (Msg.KeyMsg k) lastID).lastID (Update_asInMain m _ lastID hkm)
  exact ⟨h1, h2, rfl, h3, h4, h5, h5, g2, g1⟩

/-- C3 at the initial model: "n" arms the timer with 5 seconds. -/
theorem C3_new_timer_witness :
    (main.m bubbles).keymap.asInMain ∧ (KeyMsg.runes "n").str = "n" ∧
      ((main.m bubbles).Update (Msg.KeyMsg (KeyMsg.runes "n")) 0).m.timer.Timeout = timeout :=
  ⟨by decide, rfl,
    (C3_new_timer (main.m bubbles) (KeyMsg.runes "n") 0 (by decide) rfl).2.1⟩

/-- C4: for every model state with the key bindings of `main`, the key "q" or
"ctrl+c" yields quitting = true and returns `tea.Quit`, leaving started and
the timer unchanged. -/
theorem C4_quit_key {T : Widgets} (m : model T) (k : KeyMsg) (lastID : Int)
    (hkm : m.keymap.asInMain) (hk : k.str = "q" ∨ k.str = "ctrl+c") :
    (m.Update (Msg.KeyMsg k) lastID).m.quitting = true ∧
      (m.Update (Msg.KeyMsg k) lastID).cmd = Cmd.Quit ∧
      (m.Update (Msg.KeyMsg k) lastID).m.started = m.started ∧
      (m.Update (Msg.KeyMsg k) lastID).m.timer = m.timer := by
  have h1 : key.Matches k [m.keymap.newTimer] = false := by
    rw [matches_newTimer hkm]
    rcases hk with hk | hk <;> rw [hk] <;> decide
  have h2 : key.Matches k [m.keymap.quit] = true := by
    rw [matches_quit hkm]
    rcases hk with hk | hk <;> rw [hk] <;> decide
  simp only [model.Update, h1, h2, if_true, Bool.false_eq_true, if_false]
  refine ⟨?_, ?_, ?_, ?_⟩ <;> first | rfl | trivial

/-- C4 at the state after "n": "ctrl+c" quits and keeps the running timer. -/
theorem C4_quit_key_witness :
    afterNew.keymap.asInMain ∧ (KeyMsg.named "ctrl+c").str = "ctrl+c" ∧
      (afterNew.Update (Msg.KeyMsg (KeyMsg.named "ctrl+c")) 1).m.quitting = true ∧
      (afterNew.Update (Msg.KeyMsg (KeyMsg.named "ctrl+c")) 1).cmd = Cmd.Quit :=
  ⟨by decide, rfl,
    (C4_quit_key afterNew (KeyMsg.named "ctrl+c") 1 (by decide) (Or.inr rfl)).1,
    (C4_quit_key afterNew (KeyMsg.named "ctrl+c") 1 (by decide) (Or.inr rfl)).2.1⟩

/-! ## Submitting a task with "a" -/

/-- C1 (failing input): with "Buy milk" typed into the text area of the
initial model, the key "a" first reaches the text area, which inserts the
character, and only then the add-task branch: the viewport is given
"Buy milka" instead of the submitted "Buy milk"; the text area is emptied. -/
theorem C1_add_key_is_typed_into_task :
    bubbles.taValue typedBuyMilk.textarea = "Buy milk" ∧
      (typedBuyMilk.Update (press 'a') 0).m.viewport.content = "Buy milka" ∧
      (typedBuyMilk.Update (press 'a') 0).m.viewport.content ≠ "Buy milk" ∧
      bubbles.taValue (typedBuyMilk.Update (press 'a') 0).m.textarea = "" := by
  decide

/-- C9: for every model state and every event (tick, start/stop event, timeout
event, any key press), quitting = true before `Update` gives quitting = true
after it, and started = true before gives started = true after. -/
theorem C9_quitting_and_started_stay_set {T : Widgets} (m : model T) (msg : Msg)
    (lastID : Int) :
    (m.quitting = true → (m.Update msg lastID).m.quitting = true) ∧
      (m.started = true → (m.Update msg lastID).m.started = true) :=
  ⟨Update_quitting m msg lastID, Update_started m msg lastID⟩

/-- C9 at the state after "n" and "q": the key "n" keeps both flags set. -/
theorem C9_quitting_and_started_stay_set_witness :
    afterNewQuit.quitting = true ∧ afterNewQuit.started = true ∧
      (afterNewQuit.Update (press 'n') 1).m.quitting = true ∧
      (afterNewQuit.Update (press 'n') 1).m.started = true :=
  ⟨by decide, by decide,
    (C9_quitting_and_started_stay_set afterNewQuit (press 'n') 1).1 (by decide),
    (C9_quitting_and_started_stay_set afterNewQuit (press 'n') 1).2 (by decide)⟩

/-- C5 (as stated, refuted): in the state reached by "n" and then "q", View
renders "5s"; a tick of the running timer then changes it to "4.999s". -/
theorem C5_tick_after_quit_counterexample :
    afterNewQuit.quitting = true ∧ afterNewQuit.View = "5s\n" ∧
      (afterNewQuit.Update (Msg.TickMsg 1 false 0) 1).m.View = "4.999s\n" ∧
      (afterNewQuit.Update (Msg.TickMsg 1 false 0) 1).m.View ≠ afterNewQuit.View := by
  decide

/-- C5 (amended): for every state with quitting = true and the key bindings of
`main`, and every event, quitting is still true after the event; and when a
timer has been started, View after the event equals View before it for every
event other than a tick and the keys "n" and "r". -/
theorem C5_view_after_quit {T : Widgets} (m : model T) (msg : Msg) (lastID : Int)
    (hkm : m.keymap.asInMain) (hq : m.quitting = true) :
    (m.Update msg lastID).m.quitting = true ∧
      (m.started = true → msg.keepsTime → (m.Update msg lastID).m.View = m.View) := by
  refine ⟨Update_quitting m msg lastID hq, fun hs hmsg => ?_⟩
  rw [View_started_quitting _ (Update_started m msg lastID hs) (Update_quitting m msg lastID hq),
    View_started_quitting m hs hq, Update_Timeout m msg lastID hkm hmsg]

/-- C5 at the state after "n" and "q": the key "a" leaves View unchanged. -/
theorem C5_view_after_quit_witness :
    afterNewQuit.keymap.asInMain ∧ afterNewQuit.quitting = true ∧
      afterNewQuit.started = true ∧ (press 'a').keepsTime ∧
      (afterNewQuit.Update (press 'a') 1).m.View = afterNewQuit.View :=
  ⟨by decide, by decide, by decide, by decide,
    (C5_view_after_quit afterNewQuit (press 'a') 1 (by decide) (by decide)).2 (by decide)
      (by decide)⟩

/-! ## Rendering -/

/-- C6: from the model of `main`, after every finite sequence of key events
none of which is "n", started is still false and View is exactly the
viewport's rendering, the blank-line gap and the text area's rendering: the
timer branch of View, with its label, time line and help line, is not taken. -/
theorem C6_task_entry_without_n {T : Widgets} (ks : List KeyMsg)
    (hks : ∀ k ∈ ks, k.str ≠ "n") :
    ((main.m T).run 0 (ks.map Msg.KeyMsg)).1.started = false ∧
      ((main.m T).run 0 (ks.map Msg.KeyMsg)).1.View =
        T.vpView ((main.m T).run 0 (ks.map Msg.KeyMsg)).1.viewport ++ "\n\n" ++
          T.taView ((main.m T).run 0 (ks.map Msg.KeyMsg)).1.textarea := by
  have hs := run_keys_started ks (main.m T) 0
    ⟨rfl, rfl, rfl, rfl, rfl, rfl, rfl, rfl⟩ rfl hks
  exact ⟨hs, View_not_started _ hs⟩

/-- C6 on the keys "x", "a", "s", "r", "q": the model is still in task
entry. -/
theorem C6_task_entry_without_n_witness :
    (∀ k ∈ [KeyMsg.runes "x", KeyMsg.runes "a", KeyMsg.runes "s", KeyMsg.runes "r",
        KeyMsg.runes "q"], k.str ≠ "n") ∧
      ((main.m bubbles).run 0 ([KeyMsg.runes "x", KeyMsg.runes "a", KeyMsg.runes "s",
        KeyMsg.runes "r", KeyMsg.runes "q"].map Msg.KeyMsg)).1.started = false :=
  ⟨by decide,
    (C6_task_entry_without_n
      [KeyMsg.runes "x", KeyMsg.runes "a", KeyMsg.runes "s", KeyMsg.runes "r",
        KeyMsg.runes "q"] (by decide)).1⟩

/-- C7 (as stated, refuted): in the state reached by "n" and then "q", started
is true and View is only the time line "5s": the task label is not rendered. -/
theorem C7_no_label_when_quitting_counterexample :
    afterNewQuit.started = true ∧ afterNewQuit.quitting = true ∧
      afterNewQuit.View = "5s\n" ∧
      afterNewQuit.View ≠
        "Working on task: " ++ bubbles.vpView afterNewQuit.viewport ++ "\n" ++
          "Remaining time: " ++ afterNewQuit.timeLine ++ "\n" := by
  decide

/-- C7 (amended): for every model state with started = true, the time line is
"All done!" when the timer is timed out and the timer's rendering otherwise;
when quitting is set View is the time line alone, and when quitting is not set
View is the task label ("Working on task: " and the viewport's rendering), the
"Remaining time: " line with the time line, and the help line. -/
theorem C7_view_when_started {T : Widgets} (m : model T) (hs : m.started = true) :
    m.timeLine = (if m.timer.Timedout then "All done!" else m.timer.View) ∧
      (m.quitting = true → m.View = m.timeLine ++ "\n") ∧
      (m.quitting = false →
        m.View = "Working on task: " ++ T.vpView m.viewport ++ "\n" ++ "Remaining time: " ++
          (m.timeLine ++ "\n") ++ ("\n" ++ T.ShortHelpView m.help m.helpBindings)) := by
  refine ⟨rfl, fun hq => ?_, fun hq => ?_⟩
  · simp [model.View, model.timeLine, hs, hq]
  · simp [model.View, model.timeLine, model.helpView, hs, hq]

/-- C7 at the state after "n": label, remaining time and help line. -/
theorem C7_view_when_started_witness :
    afterNew.started = true ∧ afterNew.quitting = false ∧
      afterNew.View = "Working on task: " ++ bubbles.vpView afterNew.viewport ++ "\n" ++
        "Remaining time: " ++ (afterNew.timeLine ++ "\n") ++
          ("\n" ++ bubbles.ShortHelpView afterNew.help afterNew.helpBindings) :=
  ⟨by decide, by decide, (C7_view_when_started afterNew (by decide)).2.2 (by decide)⟩

/-! ## The two bindings of "s" -/

/-- C10: in the model of `main` stop is enabled and start is disabled; and in
every state reachable from it, exactly one of the two is enabled, a timer
start/stop event leaves stop enabled exactly when the timer is running and
start enabled exactly when it is not, a key press "s" matches none of the
earlier branches of `Update` and does match the toggle branch, which returns
the timer's toggle command, and the help line lists exactly one of start and
stop. -/
theorem C10_one_s_binding_enabled {T : Widgets} (m : model T) (lastID : Int)
    (hr : Reachable T m lastID) :
    ((main.m T).keymap.stop.Enabled = true ∧ (main.m T).keymap.start.Enabled = false) ∧
      m.keymap.start.Enabled = (!m.keymap.stop.Enabled) ∧
      (∀ (ID : Int) (running : Bool),
        (m.Update (Msg.StartStopMsg ID running) lastID).m.keymap.stop.Enabled =
            (m.Update (Msg.StartStopMsg ID running) lastID).m.timer.Running ∧
          (m.Update (Msg.StartStopMsg ID running) lastID).m.keymap.start.Enabled =
            (!(m.Update (Msg.StartStopMsg ID running) lastID).m.timer.Running)) ∧
      (∀ k : KeyMsg, k.str = "s" →
        key.Matches k [m.keymap.newTimer] = false ∧ key.Matches k [m.keymap.quit] = false ∧
          key.Matches k [m.keymap.reset] = false ∧
          key.Matches k [m.keymap.start, m.keymap.stop] = true ∧
          (m.Update (Msg.KeyMsg k) lastID).cmd = m.timer.Toggle ∧
          (m.Update (Msg.KeyMsg k) lastID).m.timer = m.timer) ∧
      (m.keymap.start ∈ helpShown m.helpBindings ↔
        ¬ m.keymap.stop ∈ helpShown m.helpBindings) := by
  obtain ⟨hkm, hd⟩ := reachable_keymap m lastID hr
  have hkeys := hkm
  obtain ⟨h1, h2, _⟩ := hkeys
  have hen : m.keymap.start.Enabled = (!m.keymap.stop.Enabled) := by
    simp [key.Binding.Enabled, h1, h2, hd]
  refine ⟨⟨rfl, rfl⟩, hen, ?_, ?_, ?_⟩
  · intro ID running
    have hkm2 := Update_asInMain m (Msg.StartStopMsg ID running) lastID hkm
    obtain ⟨g1, g2, _⟩ := hkm2
    constructor
    · simp only [key.Binding.Enabled, g2]
      simp [model.Update, key.Binding.SetEnabled]
    · simp only [key.Binding.Enabled, g1]
      simp [model.Update, key.Binding.SetEnabled]
  · intro k hk
    have m1 : key.Matches k [m.keymap.newTimer] = false := by
      rw [matches_newTimer hkm, hk]; decide
    have m2 : key.Matches k [m.keymap.quit] = false := by
      rw [matches_quit hkm, hk]; decide
    have m3 : key.Matches k [m.keymap.reset] = false := by
      rw [matches_reset hkm, hk]; decide
    have m4 : key.Matches k [m.keymap.start, m.keymap.stop] = true := by
      rw [matches_startStop hkm, hk, hen]
      cases m.keymap.stop.Enabled <;> decide
    refine ⟨m1, m2, m3, m4, ?_, ?_⟩
    · simp only [model.Update, m1, m2, m3, m4, Bool.false_eq_true, if_false, if_true]
    · simp only [model.Update, m1, m2, m3, m4, Bool.false_eq_true, if_false, if_true]
  · simp only [helpShown, model.helpBindings, List.mem_filter, List.mem_cons, true_or,
      or_true, true_and, hen]
    cases m.keymap.stop.Enabled <;> simp

/-- C10 at the state after "n": start is disabled and stop is enabled. -/
theorem C10_one_s_binding_enabled_witness :
    Reachable bubbles afterNew 1 ∧
      afterNew.keymap.start.Enabled = (!afterNew.keymap.stop.Enabled) :=
  ⟨Reachable.step (main.m bubbles) 0 (press 'n') Reachable.init,
    (C10_one_s_binding_enabled afterNew 1
      (Reachable.step (main.m bubbles) 0 (press 'n') Reachable.init)).2.1⟩

end GoTrack
